import Mathlib

/-!
Shallow embedding of `src/lib/call.js` (the `Call` session class of
sylkrtc.js) and proofs about its behaviour.

The JavaScript class is single-threaded with asynchronous continuations
(the success/failure callbacks of `setRemoteDescription`, the 150ms
`setTimeout` callback of `_sendTerminate`, the `icecandidate` listener,
the `sendRequest` error callbacks).  We embed it as:

* `Call` — the mutable instance fields of the class;
* `Action` — a trace element recording every externally visible effect
  (an `emit` to listeners, a signaling `send`, closing streams or the
  peer connection, deregistering from the account registry, arming the
  termination timer, creating the DTMF sender, inserting DTMF tones);
* pure functions, one per method, from the pre-state to the post-state
  paired with the list of actions the method performs, translated
  statement by statement from the source;
* `Machine` / `step` / `run` — an event-loop view: a `Machine` carries
  the `Call` together with the number of pending `setRemoteDescription`
  continuations and pending termination timers, and `step` dispatches
  one run-to-completion handler (an inbound state event, a continuation
  resolution, a timer firing, a user `terminate()`, an ICE candidate
  callback).
-/

namespace Sylkrtc

/-- A media track of a stream (opaque; only its identity matters). -/
structure MediaTrack where
  trackId : String
deriving DecidableEq

/-- A media stream, as seen through `getAudioTracks()`. -/
structure MediaStream where
  streamId : String
  audioTracks : List MediaTrack
deriving DecidableEq

/-- The RTCPeerConnection state the class observes: its local and remote
stream lists (`getLocalStreams()` / `getRemoteStreams()`). -/
structure RTCPeerConnection where
  localStreams : List MediaStream
  remoteStreams : List MediaStream
deriving DecidableEq

/-- The value the `track` variable of `sendDtmf` can hold.  JavaScript
distinguishes `null` (the initial value, also kept when the extraction
throws) from `undefined` (the result of indexing an empty array), and
the guard in the source is `track !== null`, which `undefined` passes. -/
inductive JsTrack where
  | jsNull : JsTrack
  | jsUndefined : JsTrack
  | track (t : MediaTrack) : JsTrack
deriving DecidableEq

/-- An RTCDTMFSender, recording the track value it was created from. -/
structure DtmfSender where
  boundTrack : JsTrack
deriving DecidableEq

/-- A remote identity (`utils.Identity`). -/
structure Identity where
  uri : String
  displayName : Option String
deriving DecidableEq

/-- Outbound signaling messages built by `_sendCall`, `_sendAnswer`,
`_sendTrickle` and `_sendTerminate`.  The `session` field is `this.id`,
which is nullable. -/
inductive SylkRequest where
  | sessionCreate (account : String) (session : Option String) (uri sdp : String)
  | sessionAnswer (session : Option String) (sdp : String)
  | sessionTrickle (session : Option String) (candidates : List String)
  | sessionTerminate (session : Option String)
deriving DecidableEq

/-- Events emitted on the `Call` instance (visible to listeners). -/
inductive Emitted where
  | stateChanged (oldState : Option String) (newState : String) (reason : Option String)
  | localStreamAdded (s : MediaStream)
  | streamAdded (s : MediaStream)
  | dtmfToneSent (tone : String)
deriving DecidableEq

/-- One externally visible effect of a method execution. -/
inductive Action where
  | emit (e : Emitted)
  | send (r : SylkRequest)
  | closeStream (s : MediaStream)
  | closePC
  | deregister
  | armTimer (ms : Nat)
  | createDTMFSender (t : JsTrack)
  | insertDTMF (tones : String) (duration interToneGap : Nat)
  | createLocalSdp (kind : String)
  | applyRemoteDescription
deriving DecidableEq

/-- The instance fields of the `Call` class (constructor, lines 13-27). -/
structure Call where
  id : Option String
  direction : Option String
  pc : Option RTCPeerConnection
  state : Option String
  terminated : Bool
  incomingSdp : Option String
  remoteIdentity : Option Identity
  dtmfSender : Option DtmfSender
  delay_established : Bool
  setup_in_progress : Bool
deriving DecidableEq

/-- A freshly constructed `Call` (all fields as in the constructor). -/
def Call.new : Call :=
  { id := none, direction := none, pc := none, state := none,
    terminated := false, incomingSdp := none, remoteIdentity := none,
    dtmfSender := none, delay_established := false, setup_in_progress := false }

/-- Result of a method that can throw: the thrown message (if any), the
resulting instance state, and the actions performed before returning or
throwing. -/
structure StepResult where
  thrown : Option String
  call : Call
  actions : List Action
deriving DecidableEq

/-- `getLocalStreams()` (lines 56-62). -/
def Call.getLocalStreams (c : Call) : List MediaStream :=
  match c.pc with
  | some p => p.localStreams
  | none => []

/-- `getRemoteStreams()` (lines 64-70). -/
def Call.getRemoteStreams (c : Call) : List MediaStream :=
  match c.pc with
  | some p => p.remoteStreams
  | none => []

/-- How JavaScript string-concatenates a nullable value
(`'...' + this._state`). -/
def jsShow : Option String → String
  | none => "null"
  | some s => s

/-- `_initRTCPeerConnection(pcConfig)` (lines 242-260): throws if a peer
connection already exists, otherwise creates a fresh one (the attached
`addstream` and `icecandidate` listeners are modelled by the machine
events below). -/
def Call.initRTCPeerConnection (c : Call) : StepResult :=
  match c.pc with
  | some _ => { thrown := some "RTCPeerConnection already initialized", call := c, actions := [] }
  | none =>
    { thrown := none,
      call := { c with pc := some { localStreams := [], remoteStreams := [] } },
      actions := [] }

/-- `pc.addStream(stream)`: appends to the local stream list. -/
def Call.addStreamToPc (c : Call) (s : MediaStream) : Call :=
  match c.pc with
  | some p => { c with pc := some { p with localStreams := p.localStreams ++ [s] } }
  | none => c

/-- The options bag passed to `answer` / `_initOutgoing`; only
`localStream` affects control flow. -/
structure CallOptions where
  localStream : Option MediaStream
deriving DecidableEq

/-- `_initOutgoing(uri, options)` (lines 146-176).  `genId` stands for
the externally generated `uuidv4()`; `uri.indexOf('@') === -1` is the
statement that `'@'` occurs nowhere among the characters of `uri`.
The asynchronous
`utils.createLocalSdp` call is recorded as a `createLocalSdp` action;
its continuation (`_sendCall` or `_localTerminate`) is not reached
inside this method. -/
def Call.initOutgoing (genId : String) (c : Call) (uri : String) (opts : CallOptions) : StepResult :=
  if uri.data.contains '@' = false then
    { thrown := some "Invalid URI", call := c, actions := [] }
  else
    match opts.localStream with
    | none => { thrown := some "Missing localStream", call := c, actions := [] }
    | some stream =>
      let c1 : Call :=
        { c with id := some genId, direction := some "outgoing",
                 remoteIdentity := some { uri := uri, displayName := none } }
      let r := c1.initRTCPeerConnection
      match r.thrown with
      | some e => { thrown := some e, call := r.call, actions := r.actions }
      | none =>
        let c2 := r.call.addStreamToPc stream
        { thrown := none, call := c2,
          actions := r.actions ++ [.emit (.localStreamAdded stream), .createLocalSdp "offer"] }

/-- `_initIncoming(id, caller, sdp)` (lines 178-185). -/
def Call.initIncoming (c : Call) (id : String) (callerUri : String)
    (callerDisplayName : Option String) (sdp : String) : Call :=
  { c with id := some id,
           remoteIdentity := some { uri := callerUri, displayName := callerDisplayName },
           incomingSdp := some sdp,
           direction := some "incoming",
           state := some "incoming" }

/-- `answer(options)` (lines 72-109).  The asynchronous
`setRemoteDescription` of the stored offer is recorded as an
`applyRemoteDescription` action; its continuations are not reached
inside this method. -/
def Call.answer (c : Call) (opts : CallOptions) : StepResult :=
  if c.state ≠ some "incoming" then
    { thrown := some ("Call is not in the incoming state: " ++ jsShow c.state),
      call := c, actions := [] }
  else
    match opts.localStream with
    | none => { thrown := some "Missing localStream", call := c, actions := [] }
    | some stream =>
      let r := c.initRTCPeerConnection
      match r.thrown with
      | some e => { thrown := some e, call := r.call, actions := r.actions }
      | none =>
        let c2 := r.call.addStreamToPc stream
        { thrown := none, call := c2,
          actions := r.actions ++ [.emit (.localStreamAdded stream), .applyRemoteDescription] }

/-- `_closeRTCPeerConnection()` (lines 330-346): closes every local and
remote stream, closes and nulls the peer connection, and releases the
DTMF sender — all only when a peer connection exists. -/
def Call.closeRTCPeerConnection (c : Call) : Call × List Action :=
  match c.pc with
  | none => (c, [])
  | some p =>
    let acts := (p.localStreams.map Action.closeStream)
      ++ (p.remoteStreams.map Action.closeStream) ++ [Action.closePC]
    let c1 : Call := { c with pc := none }
    match c1.dtmfSender with
    | none => (c1, acts)
    | some _ => ({ c1 with dtmfSender := none }, acts)

/-- `sendDtmf(tones, duration, interToneGap)` (lines 119-142).  `env`
models the external `pc.createDTMFSender(track)`: `none` stands for a
falsy return value (the source checks `if (this._dtmfSender)`).  The
track extraction mirrors the JavaScript `try` block:
`getLocalStreams()[0]` on an empty list is `undefined`, so
`.getAudioTracks()` throws and `track` stays `null`; but
`getAudioTracks()[0]` on a stream with no audio tracks is `undefined`
without throwing, and `undefined !== null` holds. -/
def Call.sendDtmf (env : JsTrack → Option DtmfSender) (c : Call)
    (tones : String) (duration interToneGap : Nat) : Call × List Action :=
  let created : Call × List Action :=
    if c.dtmfSender = none then
      match c.pc with
      | none => (c, [])
      | some p =>
        let track : JsTrack :=
          match p.localStreams with
          | [] => .jsNull
          | s :: _ =>
            match s.audioTracks with
            | [] => .jsUndefined
            | t :: _ => .track t
        if track ≠ JsTrack.jsNull then
          ({ c with dtmfSender := env track }, [.createDTMFSender track])
        else
          (c, [])
    else
      (c, [])
  let c1 := created.1
  if c1.dtmfSender ≠ none then
    (c1, created.2 ++ [.insertDTMF tones duration interToneGap])
  else
    (c1, created.2)

/-- The event-loop state: the instance together with the pending
asynchronous continuations that exist in the runtime — `rdPending`
counts `setRemoteDescription` continuations from the `accepted` handler
that are registered but have not yet run, and `timerPending` counts
armed 150ms termination timers that have not yet fired. -/
structure Machine where
  call : Call
  rdPending : Nat
  timerPending : Nat
deriving DecidableEq

/-- A machine for a fresh instance with no pending continuations. -/
def Machine.ofCall (c : Call) : Machine :=
  { call := c, rdPending := 0, timerPending := 0 }

/-- `_sendTerminate()` (lines 282-300): sends a session-terminate
message and arms the 150ms fallback timer.  (The `sendRequest` error
callback is modelled by `Ev.sendError` below.) -/
def Machine.sendTerminate (m : Machine) : Machine × List Action :=
  ({ m with timerPending := m.timerPending + 1 },
   [.send (.sessionTerminate m.call.id), .armTimer 150])

/-- `terminate()` (lines 111-117): a no-op when `_terminated` is
already set, otherwise `_sendTerminate()`. -/
def Machine.terminate (m : Machine) : Machine × List Action :=
  if m.call.terminated then (m, []) else m.sendTerminate

/-- `_localTerminate(error)` (lines 348-362): no-op when already
terminated; otherwise deregisters from the account registry, sets
`_terminated`, closes the peer connection and emits the `terminated`
state change carrying the reason.  (Note the source never assigns
`this._state` here; only the notification carries `'terminated'`.) -/
def Machine.localTerminate (m : Machine) (error : String) : Machine × List Action :=
  if m.call.terminated then (m, [])
  else
    let oldState := m.call.state
    let c1 : Call := { m.call with terminated := true }
    let closed := c1.closeRTCPeerConnection
    ({ m with call := closed.1 },
     [.deregister] ++ closed.2
       ++ [.emit (.stateChanged oldState "terminated" (some error))])

/-- The 150ms `setTimeout` callback armed by `_sendTerminate`
(lines 293-299): if not yet terminated, force local termination with
the synthetic reason `'200 OK'`; in either case set `_terminated`. -/
def Machine.timerFire (m : Machine) : Machine × List Action :=
  if m.timerPending = 0 then (m, [])
  else
    let m1 : Machine := { m with timerPending := m.timerPending - 1 }
    if m1.call.terminated = false then
      let r := m1.localTerminate "200 OK"
      ({ r.1 with call := { r.1.call with terminated := true } }, r.2)
    else
      ({ m1 with call := { m1.call with terminated := true } }, [])

/-- `_sendTrickle(candidate)` (lines 302-314), as invoked by the
`icecandidate` listener (lines 252-259): one session-trickle message
per callback, with a one-element candidate list, or an empty list for
the end-of-candidates (`null`) marker.  The source performs no
`_terminated` check here. -/
def Machine.onIceCandidate (m : Machine) (candidate : Option String) : Machine × List Action :=
  (m, [.send (.sessionTrickle m.call.id
        (match candidate with | some cand => [cand] | none => []))])

/-- The `state` case of `_handleEvent(message)` (lines 190-236). -/
def Machine.handleState (m : Machine) (newState : String) (reason : Option String) :
    Machine × List Action :=
  let oldState := m.call.state
  let c : Call := { m.call with state := some newState }
  if newState = "accepted" ∧ c.direction = some "outgoing" then
    let c1 : Call := { c with setup_in_progress := true }
    ({ m with call := c1, rdPending := m.rdPending + 1 },
     [.emit (.stateChanged oldState newState none), .applyRemoteDescription])
  else if newState = "established" ∧ c.direction = some "outgoing" then
    if c.setup_in_progress then
      ({ m with call := { c with delay_established := true } }, [])
    else
      ({ m with call := c }, [.emit (.stateChanged oldState newState none)])
  else if newState = "terminated" then
    let c1 : Call := { c with terminated := true }
    let closed := c1.closeRTCPeerConnection
    ({ m with call := closed.1 },
     [.emit (.stateChanged oldState newState reason), .deregister] ++ closed.2)
  else
    ({ m with call := c }, [.emit (.stateChanged oldState newState none)])

/-- The success callback of the `setRemoteDescription` started by the
`accepted` handler (lines 204-215): clears `_setup_in_progress`, and —
unless terminated — replays a deferred `established` notification. -/
def Machine.rdResolve (m : Machine) : Machine × List Action :=
  if m.rdPending = 0 then (m, [])
  else
    let m1 : Machine := { m with rdPending := m.rdPending - 1 }
    let c : Call := { m1.call with setup_in_progress := false }
    if c.terminated = false ∧ c.delay_established then
      let oldState := c.state
      let c1 : Call := { c with state := some "established", delay_established := false }
      ({ m1 with call := c1 },
       [.emit (.stateChanged oldState "established" none)])
    else
      ({ m1 with call := c }, [])

/-- The failure callback of the same `setRemoteDescription`
(lines 217-220): `this.terminate()`.  (`_setup_in_progress` is not
cleared on this path.) -/
def Machine.rdReject (m : Machine) : Machine × List Action :=
  if m.rdPending = 0 then (m, [])
  else Machine.terminate { m with rdPending := m.rdPending - 1 }

/-- One run-to-completion handler dispatch on the event loop. -/
inductive Ev where
  | stateEvent (newState : String) (reason : Option String)
  | rdResolve
  | rdReject
  | timerFire
  | doTerminate
  | iceCandidate (candidate : Option String)
deriving DecidableEq

/-- Dispatch one event. -/
def Machine.step (m : Machine) : Ev → Machine × List Action
  | .stateEvent newState reason => m.handleState newState reason
  | .rdResolve => m.rdResolve
  | .rdReject => m.rdReject
  | .timerFire => m.timerFire
  | .doTerminate => m.terminate
  | .iceCandidate candidate => m.onIceCandidate candidate

/-- Run a sequence of events, concatenating the action traces. -/
def Machine.run (m : Machine) : List Ev → Machine × List Action
  | [] => (m, [])
  | e :: es =>
    let r1 := m.step e
    let r2 := r1.1.run es
    (r2.1, r1.2 ++ r2.2)

/-- Whether an action is a `stateChanged` notification to `ns`. -/
def isStateEmitTo (ns : String) : Action → Bool
  | .emit (.stateChanged _ n _) => n = ns
  | _ => false

/-- Whether an action is an outbound signaling send. -/
def isSendAction : Action → Bool
  | .send _ => true
  | _ => false

/-- Whether an action is a session-terminate send. -/
def isTerminateSend : Action → Bool
  | .send (.sessionTerminate _) => true
  | _ => false

/-- Whether an action closes the peer connection. -/
def isClosePC : Action → Bool
  | .closePC => true
  | _ => false

/-- Count the `stateChanged` notifications to a given new state in a
trace. -/
def countStateEmits (ns : String) (as : List Action) : Nat :=
  as.countP (isStateEmitTo ns)

/-- Count the outbound signaling sends in a trace. -/
def countSends (as : List Action) : Nat :=
  as.countP isSendAction

/-- Count the session-terminate sends in a trace. -/
def countTerminateSends (as : List Action) : Nat :=
  as.countP isTerminateSend

/-- Count the peer-connection closes in a trace. -/
def countCloses (as : List Action) : Nat :=
  as.countP isClosePC

/-- The `stateChanged`-to-`terminated` notifications of a trace. -/
def terminatedEmits (as : List Action) : List Action :=
  as.filter (isStateEmitTo "terminated")

@[simp] theorem countStateEmits_nil (ns : String) : countStateEmits ns [] = 0 := rfl

@[simp] theorem countStateEmits_cons (ns : String) (a : Action) (as : List Action) :
    countStateEmits ns (a :: as)
      = countStateEmits ns as + (if isStateEmitTo ns a then 1 else 0) := by
  simp [countStateEmits, List.countP_cons]

@[simp] theorem countStateEmits_append (ns : String) (l1 l2 : List Action) :
    countStateEmits ns (l1 ++ l2) = countStateEmits ns l1 + countStateEmits ns l2 := by
  simp [countStateEmits, List.countP_append]

@[simp] theorem countSends_nil : countSends [] = 0 := rfl

@[simp] theorem countSends_cons (a : Action) (as : List Action) :
    countSends (a :: as) = countSends as + (if isSendAction a then 1 else 0) := by
  simp [countSends, List.countP_cons]

@[simp] theorem countSends_append (l1 l2 : List Action) :
    countSends (l1 ++ l2) = countSends l1 + countSends l2 := by
  simp [countSends, List.countP_append]

@[simp] theorem countTerminateSends_nil : countTerminateSends [] = 0 := rfl

@[simp] theorem countTerminateSends_cons (a : Action) (as : List Action) :
    countTerminateSends (a :: as)
      = countTerminateSends as + (if isTerminateSend a then 1 else 0) := by
  simp [countTerminateSends, List.countP_cons]

@[simp] theorem countTerminateSends_append (l1 l2 : List Action) :
    countTerminateSends (l1 ++ l2) = countTerminateSends l1 + countTerminateSends l2 := by
  simp [countTerminateSends, List.countP_append]

@[simp] theorem countCloses_nil : countCloses [] = 0 := rfl

@[simp] theorem countCloses_cons (a : Action) (as : List Action) :
    countCloses (a :: as) = countCloses as + (if isClosePC a then 1 else 0) := by
  simp [countCloses, List.countP_cons]

@[simp] theorem countCloses_append (l1 l2 : List Action) :
    countCloses (l1 ++ l2) = countCloses l1 + countCloses l2 := by
  simp [countCloses, List.countP_append]

@[simp] theorem terminatedEmits_nil : terminatedEmits [] = [] := rfl

@[simp] theorem terminatedEmits_cons (a : Action) (as : List Action) :
    terminatedEmits (a :: as)
      = (if isStateEmitTo "terminated" a then [a] else []) ++ terminatedEmits as := by
  by_cases hp : isStateEmitTo "terminated" a = true <;>
    simp [terminatedEmits, List.filter_cons, hp]

@[simp] theorem terminatedEmits_append (l1 l2 : List Action) :
    terminatedEmits (l1 ++ l2) = terminatedEmits l1 ++ terminatedEmits l2 := by
  simp [terminatedEmits, List.filter_append]

/-- Every action of a peer-connection teardown closes a stream or the
connection itself. -/
theorem close_action_cases (c : Call) :
    ∀ a ∈ (c.closeRTCPeerConnection).2, (∃ s, a = .closeStream s) ∨ a = .closePC := by
  intro a ha
  rcases hc : c.pc with _ | p
  · simp [Call.closeRTCPeerConnection, hc] at ha
  · rcases hd : c.dtmfSender with _ | s <;>
      simp only [Call.closeRTCPeerConnection, hc, hd, List.mem_append, List.mem_map,
        List.mem_singleton] at ha <;>
      rcases ha with (⟨s, _, rfl⟩ | ⟨s, _, rfl⟩) | rfl <;> simp

@[simp] theorem countStateEmits_close (ns : String) (c : Call) :
    countStateEmits ns (c.closeRTCPeerConnection).2 = 0 := by
  refine List.countP_eq_zero.2 (fun a ha => ?_)
  rcases close_action_cases c a ha with ⟨s, rfl⟩ | rfl <;> simp [isStateEmitTo]

@[simp] theorem countSends_close (c : Call) :
    countSends (c.closeRTCPeerConnection).2 = 0 := by
  refine List.countP_eq_zero.2 (fun a ha => ?_)
  rcases close_action_cases c a ha with ⟨s, rfl⟩ | rfl <;> simp [isSendAction]

@[simp] theorem countTerminateSends_close (c : Call) :
    countTerminateSends (c.closeRTCPeerConnection).2 = 0 := by
  refine List.countP_eq_zero.2 (fun a ha => ?_)
  rcases close_action_cases c a ha with ⟨s, rfl⟩ | rfl <;> simp [isTerminateSend]

@[simp] theorem terminatedEmits_close (c : Call) :
    terminatedEmits (c.closeRTCPeerConnection).2 = [] := by
  refine List.filter_eq_nil_iff.2 (fun a ha => ?_)
  rcases close_action_cases c a ha with ⟨s, rfl⟩ | rfl <;> simp [isStateEmitTo]

@[simp] theorem closeRTC_pc (c : Call) : (c.closeRTCPeerConnection).1.pc = none := by
  rcases hc : c.pc with _ | p <;> rcases hd : c.dtmfSender with _ | s <;>
    simp [Call.closeRTCPeerConnection, hc, hd]

@[simp] theorem closeRTC_terminated (c : Call) :
    (c.closeRTCPeerConnection).1.terminated = c.terminated := by
  rcases hc : c.pc with _ | p <;> rcases hd : c.dtmfSender with _ | s <;>
    simp [Call.closeRTCPeerConnection, hc, hd]

@[simp] theorem closeRTC_state (c : Call) :
    (c.closeRTCPeerConnection).1.state = c.state := by
  rcases hc : c.pc with _ | p <;> rcases hd : c.dtmfSender with _ | s <;>
    simp [Call.closeRTCPeerConnection, hc, hd]

@[simp] theorem closeRTC_direction (c : Call) :
    (c.closeRTCPeerConnection).1.direction = c.direction := by
  rcases hc : c.pc with _ | p <;> rcases hd : c.dtmfSender with _ | s <;>
    simp [Call.closeRTCPeerConnection, hc, hd]

@[simp] theorem closeRTC_delay_established (c : Call) :
    (c.closeRTCPeerConnection).1.delay_established = c.delay_established := by
  rcases hc : c.pc with _ | p <;> rcases hd : c.dtmfSender with _ | s <;>
    simp [Call.closeRTCPeerConnection, hc, hd]

@[simp] theorem closeRTC_setup_in_progress (c : Call) :
    (c.closeRTCPeerConnection).1.setup_in_progress = c.setup_in_progress := by
  rcases hc : c.pc with _ | p <;> rcases hd : c.dtmfSender with _ | s <;>
    simp [Call.closeRTCPeerConnection, hc, hd]

@[simp] theorem closeRTC_id (c : Call) :
    (c.closeRTCPeerConnection).1.id = c.id := by
  rcases hc : c.pc with _ | p <;> rcases hd : c.dtmfSender with _ | s <;>
    simp [Call.closeRTCPeerConnection, hc, hd]

/-- A concrete outgoing call used as a witness input: id assigned, peer
connection created, remote `accepted`/`established` still to come. -/
def outgoingCall : Call :=
  { Call.new with id := some "s1", direction := some "outgoing",
                  pc := some { localStreams := [], remoteStreams := [] } }

/-- The machine for `outgoingCall` with no pending continuations. -/
def outgoingMachine : Machine := Machine.ofCall outgoingCall

/-- A concrete machine already past teardown: `terminated` set, peer
connection nulled. -/
def terminatedMachine : Machine :=
  Machine.ofCall
    { outgoingCall with state := some "terminated", terminated := true, pc := none }

/-- C10: `getLocalStreams()` and `getRemoteStreams()` never raise; in
particular, whenever no peer connection exists (before initialization
or after teardown nulled it) both return the empty list.  (Both are
total functions of the instance state, so no exception is possible.) -/
theorem C10_no_pc_streams_empty (c : Call) (h : c.pc = none) :
    c.getLocalStreams = [] ∧ c.getRemoteStreams = [] := by
  simp [Call.getLocalStreams, Call.getRemoteStreams, h]

/-- Witness for C10 on a freshly constructed call. -/
theorem C10_witness :
    Call.new.pc = none ∧ (Call.new.getLocalStreams = [] ∧ Call.new.getRemoteStreams = []) :=
  ⟨rfl, C10_no_pc_streams_empty Call.new rfl⟩

/-- C8: every locally discovered candidate triggers exactly one
session-trickle message carrying that single candidate in a one-element
list, and the end-of-candidates (`null`) marker triggers exactly one
session-trickle message with an empty candidate list; nothing is ever
batched. -/
theorem C8_trickle_per_candidate (m : Machine) (cand : String) :
    m.step (.iceCandidate (some cand))
      = (m, [.send (.sessionTrickle m.call.id [cand])])
    ∧ m.step (.iceCandidate none)
      = (m, [.send (.sessionTrickle m.call.id [])]) :=
  ⟨rfl, rfl⟩

/-- C6: outgoing initiation with a destination URI lacking `'@'`, or
with no local stream, throws synchronously with the instance untouched,
no peer connection created, and no action (no emit, no send)
performed. -/
theorem C6_invalid_invite_fails (genId : String) (c : Call) (uri : String)
    (opts : CallOptions)
    (h : uri.data.contains '@' = false ∨ opts.localStream = none) :
    ∃ e, Call.initOutgoing genId c uri opts
      = { thrown := some e, call := c, actions := [] } := by
  rcases h with h | h
  · refine ⟨"Invalid URI", ?_⟩
    unfold Call.initOutgoing
    rw [if_pos h]
  · by_cases hu : uri.data.contains '@' = false
    · refine ⟨"Invalid URI", ?_⟩
      unfold Call.initOutgoing
      rw [if_pos hu]
    · refine ⟨"Missing localStream", ?_⟩
      unfold Call.initOutgoing
      rw [if_neg hu, h]

/-- Witness for C6: calling `"alice"` (no `'@'`) with no stream. -/
theorem C6_witness :
    ("alice".data.contains '@' = false ∨ (CallOptions.mk none).localStream = none)
    ∧ ∃ e, Call.initOutgoing "gen-id" Call.new "alice" (CallOptions.mk none)
        = { thrown := some e, call := Call.new, actions := [] } :=
  ⟨Or.inl (by decide),
   C6_invalid_invite_fails "gen-id" Call.new "alice" (CallOptions.mk none)
     (Or.inl (by decide))⟩

/-- C7: `answer()` throws synchronously — instance untouched, no
peer connection created, no action performed — whenever the session is
not in the `incoming` state or no local stream is supplied; and
initializing the peer connection while one exists likewise throws with
the instance untouched. -/
theorem C7_answer_precondition_failures (c c2 : Call) (opts : CallOptions)
    (h : c.state ≠ some "incoming" ∨ opts.localStream = none)
    (h2 : c2.pc ≠ none) :
    (∃ e, c.answer opts = { thrown := some e, call := c, actions := [] })
    ∧ (∃ e, c2.initRTCPeerConnection = { thrown := some e, call := c2, actions := [] }) := by
  constructor
  · rcases h with h | h
    · refine ⟨"Call is not in the incoming state: " ++ jsShow c.state, ?_⟩
      unfold Call.answer
      rw [if_pos h]
    · by_cases hs : c.state = some "incoming"
      · refine ⟨"Missing localStream", ?_⟩
        unfold Call.answer
        rw [if_neg (fun hne => hne hs), h]
      · refine ⟨"Call is not in the incoming state: " ++ jsShow c.state, ?_⟩
        unfold Call.answer
        rw [if_pos hs]
  · obtain ⟨p, hp⟩ := Option.ne_none_iff_exists'.1 h2
    refine ⟨"RTCPeerConnection already initialized", ?_⟩
    unfold Call.initRTCPeerConnection
    rw [hp]

/-- Witness for C7: answering a fresh (non-incoming) call with no
stream, and re-initializing the peer connection of `outgoingCall`. -/
theorem C7_witness :
    (Call.new.state ≠ some "incoming" ∨ (CallOptions.mk none).localStream = none)
    ∧ outgoingCall.pc ≠ none
    ∧ ((∃ e, Call.new.answer (CallOptions.mk none)
          = { thrown := some e, call := Call.new, actions := [] })
       ∧ (∃ e, outgoingCall.initRTCPeerConnection
          = { thrown := some e, call := outgoingCall, actions := [] })) :=
  ⟨Or.inl (by decide), by decide,
   C7_answer_precondition_failures Call.new outgoingCall (CallOptions.mk none)
     (Or.inl (by decide)) (by decide)⟩

/-- C2: a remote `established` state event on an outgoing session with
no remote-description application in flight emits the `established`
notification immediately, with no deferral. -/
theorem C2_established_immediate (m : Machine)
    (hdir : m.call.direction = some "outgoing")
    (hsp : m.call.setup_in_progress = false) :
    m.step (.stateEvent "established" none)
      = ({ m with call := { m.call with state := some "established" } },
         [.emit (.stateChanged m.call.state "established" none)]) := by
  simp [Machine.step, Machine.handleState, hdir, hsp]

/-- Witness for C2 on the concrete outgoing machine. -/
theorem C2_witness :
    outgoingMachine.call.direction = some "outgoing"
    ∧ outgoingMachine.call.setup_in_progress = false
    ∧ outgoingMachine.step (.stateEvent "established" none)
      = ({ outgoingMachine with
            call := { outgoingMachine.call with state := some "established" } },
         [.emit (.stateChanged outgoingMachine.call.state "established" none)]) :=
  ⟨rfl, rfl, C2_established_immediate outgoingMachine rfl rfl⟩

/-- C1: on an outgoing session receiving `accepted` and then
`established` while the remote-description application is still in
flight, the `established` notification is withheld before the
application resolves, emitted exactly once when it resolves
successfully (a further resolution adds nothing), and not emitted at
all when a remote `terminated` event arrived in the interim or the
application fails. -/
theorem C1_deferred_established (m : Machine)
    (hdir : m.call.direction = some "outgoing")
    (hterm : m.call.terminated = false)
    (hrd : m.rdPending = 0) :
    countStateEmits "established"
      (m.run [.stateEvent "accepted" none, .stateEvent "established" none]).2 = 0
    ∧ countStateEmits "established"
      (m.run [.stateEvent "accepted" none, .stateEvent "established" none, .rdResolve]).2 = 1
    ∧ countStateEmits "established"
      (m.run [.stateEvent "accepted" none, .stateEvent "established" none,
              .rdResolve, .rdResolve]).2 = 1
    ∧ countStateEmits "established"
      (m.run [.stateEvent "accepted" none, .stateEvent "established" none,
              .stateEvent "terminated" none, .rdResolve]).2 = 0
    ∧ countStateEmits "established"
      (m.run [.stateEvent "accepted" none, .stateEvent "established" none, .rdReject]).2 = 0 := by
  refine ⟨?_, ?_, ?_, ?_, ?_⟩ <;>
    simp [Machine.run, Machine.step, Machine.handleState, Machine.rdResolve,
      Machine.rdReject, Machine.terminate, Machine.sendTerminate, hdir, hterm, hrd,
      isStateEmitTo]

/-- Witness for C1 on the concrete outgoing machine. -/
theorem C1_witness :
    outgoingMachine.call.direction = some "outgoing"
    ∧ outgoingMachine.call.terminated = false
    ∧ outgoingMachine.rdPending = 0
    ∧ (countStateEmits "established"
        (outgoingMachine.run
          [.stateEvent "accepted" none, .stateEvent "established" none]).2 = 0
      ∧ countStateEmits "established"
        (outgoingMachine.run
          [.stateEvent "accepted" none, .stateEvent "established" none, .rdResolve]).2 = 1
      ∧ countStateEmits "established"
        (outgoingMachine.run
          [.stateEvent "accepted" none, .stateEvent "established" none,
           .rdResolve, .rdResolve]).2 = 1
      ∧ countStateEmits "established"
        (outgoingMachine.run
          [.stateEvent "accepted" none, .stateEvent "established" none,
           .stateEvent "terminated" none, .rdResolve]).2 = 0
      ∧ countStateEmits "established"
        (outgoingMachine.run
          [.stateEvent "accepted" none, .stateEvent "established" none, .rdReject]).2 = 0) :=
  ⟨rfl, rfl, rfl, C1_deferred_established outgoingMachine rfl rfl rfl⟩

/-- C3 counterexample: on a live outgoing session, `terminate()` called
twice in immediate succession sends the session-terminate signaling
message twice (and arms two fallback timers) — the `terminated` guard
does not stop the second call, because `_sendTerminate` does not set
`_terminated`; the flag only becomes true via a remote `terminated`
event, `_localTerminate`, or the 150ms timer callback. -/
theorem C3_counterexample :
    countTerminateSends (outgoingMachine.run [.doTerminate, .doTerminate]).2 = 2
    ∧ (outgoingMachine.run [.doTerminate, .doTerminate]).1.timerPending = 2 := by
  constructor <;> rfl

/-- C3 amended: `terminate()` is a no-op once the `terminated` flag is
true (set by a remote `terminated` event, local termination, or the
150ms timer callback); until the flag is set, each call performs the
signaling send and arms a fallback timer again — so two calls before
the flag is set send twice. -/
theorem C3_terminate_guarded_by_flag (m : Machine) :
    (m.call.terminated = true → m.step .doTerminate = (m, []))
    ∧ (m.call.terminated = false →
        m.step .doTerminate
          = ({ m with timerPending := m.timerPending + 1 },
             [.send (.sessionTerminate m.call.id), .armTimer 150]))
    ∧ (m.call.terminated = false →
        countTerminateSends (m.run [.doTerminate, .doTerminate]).2 = 2) := by
  refine ⟨fun h => ?_, fun h => ?_, fun h => ?_⟩ <;>
    simp [Machine.run, Machine.step, Machine.terminate, Machine.sendTerminate, h,
      isTerminateSend]

/-- Witness for C3 amended: the guard on a machine already past
teardown, and the double send on a live one. -/
theorem C3_witness :
    (terminatedMachine.call.terminated = true
      ∧ terminatedMachine.step .doTerminate = (terminatedMachine, []))
    ∧ (outgoingMachine.call.terminated = false
      ∧ countTerminateSends (outgoingMachine.run [.doTerminate, .doTerminate]).2 = 2) :=
  ⟨⟨rfl, (C3_terminate_guarded_by_flag terminatedMachine).1 rfl⟩,
   ⟨rfl, (C3_terminate_guarded_by_flag outgoingMachine).2.2 rfl⟩⟩

/-- C4 counterexample: on a session whose `terminated` flag is true
(state event handled, peer connection torn down), a late candidate
callback still sends a session-trickle message, and a late inbound
state event still changes the state and emits a notification —
`_sendTrickle` and `_handleEvent` contain no `terminated` check. -/
theorem C4_counterexample :
    terminatedMachine.call.terminated = true
    ∧ countSends (terminatedMachine.step (.iceCandidate (some "cand-1"))).2 = 1
    ∧ (terminatedMachine.step (.stateEvent "established" none)).1.call.state
        = some "established"
    ∧ countStateEmits "established"
        (terminatedMachine.step (.stateEvent "established" none)).2 = 1 := by
  refine ⟨rfl, by decide, by decide, by decide⟩

/-- C4 amended: once `terminated` is true and the peer connection has
been nulled, `terminate()` is a no-op, a firing fallback timer and a
resolving remote-description continuation perform no actions, and the
peer connection is never closed again (the close is guarded by a
non-null connection, which teardown nulls); but late candidate
callbacks still send one session-trickle message each. -/
theorem C4_after_terminated (m : Machine)
    (hterm : m.call.terminated = true) (hpc : m.call.pc = none) :
    m.step .doTerminate = (m, [])
    ∧ (m.step .timerFire).2 = []
    ∧ (m.step .rdResolve).2 = []
    ∧ countCloses (m.step (.stateEvent "terminated" none)).2 = 0
    ∧ ∀ cand, (m.step (.iceCandidate (some cand))).2
        = [.send (.sessionTrickle m.call.id [cand])] := by
  refine ⟨?_, ?_, ?_, ?_, fun cand => rfl⟩
  · simp [Machine.step, Machine.terminate, hterm]
  · by_cases htp : m.timerPending = 0 <;>
      simp [Machine.step, Machine.timerFire, htp, hterm]
  · by_cases hrd : m.rdPending = 0 <;>
      simp [Machine.step, Machine.rdResolve, hrd, hterm]
  · simp [Machine.step, Machine.handleState, Call.closeRTCPeerConnection, hpc, isClosePC]

/-- Witness for C4 amended on the concrete torn-down machine. -/
theorem C4_witness :
    terminatedMachine.call.terminated = true
    ∧ terminatedMachine.call.pc = none
    ∧ (terminatedMachine.step .doTerminate = (terminatedMachine, [])
      ∧ (terminatedMachine.step .timerFire).2 = []
      ∧ (terminatedMachine.step .rdResolve).2 = []
      ∧ countCloses (terminatedMachine.step (.stateEvent "terminated" none)).2 = 0
      ∧ ∀ cand, (terminatedMachine.step (.iceCandidate (some cand))).2
          = [.send (.sessionTrickle terminatedMachine.call.id [cand])]) :=
  ⟨rfl, rfl, C4_after_terminated terminatedMachine rfl rfl⟩

/-- C5: `terminate()` with no remote response is finalized by the 150ms
fallback timer: the trace carries exactly one `terminated` notification
and it bears the synthetic reason `'200 OK'`, and the flag ends up set;
whereas if a remote `terminated` event finalizes the session before the
timer fires, the fired timer callback performs no action at all (no
second notification, no second teardown). -/
theorem C5_timer_fallback (m : Machine)
    (hterm : m.call.terminated = false) (htp : m.timerPending = 0) :
    terminatedEmits (m.run [.doTerminate, .timerFire]).2
      = [.emit (.stateChanged m.call.state "terminated" (some "200 OK"))]
    ∧ (m.run [.doTerminate, .timerFire]).1.call.terminated = true
    ∧ ∀ r, ((m.run [.doTerminate, .stateEvent "terminated" r]).1.step .timerFire).2 = [] := by
  refine ⟨?_, ?_, fun r => ?_⟩ <;>
    simp [Machine.run, Machine.step, Machine.terminate, Machine.sendTerminate,
      Machine.timerFire, Machine.localTerminate, Machine.handleState, hterm, htp,
      isStateEmitTo]

/-- Witness for C5 on the concrete outgoing machine. -/
theorem C5_witness :
    outgoingMachine.call.terminated = false
    ∧ outgoingMachine.timerPending = 0
    ∧ (terminatedEmits (outgoingMachine.run [.doTerminate, .timerFire]).2
        = [.emit (.stateChanged outgoingMachine.call.state "terminated" (some "200 OK"))]
      ∧ (outgoingMachine.run [.doTerminate, .timerFire]).1.call.terminated = true
      ∧ ∀ r, ((outgoingMachine.run
          [.doTerminate, .stateEvent "terminated" r]).1.step .timerFire).2 = []) :=
  ⟨rfl, rfl, C5_timer_fallback outgoingMachine rfl rfl⟩

/-- An external `createDTMFSender` that returns a (truthy) sender for
whatever track value it is given. -/
def envTruthy : JsTrack → Option DtmfSender := fun t => some { boundTrack := t }

/-- A local stream carrying no audio tracks. -/
def noAudioStream : MediaStream := { streamId := "ls1", audioTracks := [] }

/-- A peer connection whose only local stream has no audio tracks. -/
def noAudioPc : RTCPeerConnection := { localStreams := [noAudioStream], remoteStreams := [] }

/-- A call on such a peer connection, with no DTMF sender yet. -/
def noAudioCall : Call :=
  { Call.new with id := some "s2", direction := some "outgoing", pc := some noAudioPc }

/-- C9 counterexample: a peer connection exists whose single local
stream has no audio track, yet `sendDtmf` is not a silent no-op: the
JavaScript `getAudioTracks()[0]` yields `undefined` (not `null`)
without throwing, the `track !== null` guard passes, sender creation is
attempted with the undefined track, and (with a sender returned) a tone
is enqueued. -/
theorem C9_counterexample :
    noAudioCall.dtmfSender = none
    ∧ noAudioCall.pc ≠ none
    ∧ (∀ s ∈ noAudioCall.getLocalStreams, s.audioTracks = [])
    ∧ (noAudioCall.sendDtmf envTruthy "1" 100 70).2
        = [.createDTMFSender .jsUndefined, .insertDTMF "1" 100 70] := by
  refine ⟨rfl, by decide, by decide, by decide⟩

/-- C9 amended: `sendDtmf` is a silent no-op when the peer connection
is absent, or when it has no local stream at all (there the track
extraction throws and is caught); a second call with a sender already
created reuses it; but when a first local stream exists, creation is
attempted with its first audio-track value — which is the undefined
value when the stream has no audio tracks. -/
theorem C9_dtmf_lazy_guard (env : JsTrack → Option DtmfSender) (c : Call)
    (tones : String) (d g : Nat) :
    (c.dtmfSender = none → c.pc = none → c.sendDtmf env tones d g = (c, []))
    ∧ (∀ p, c.dtmfSender = none → c.pc = some p → p.localStreams = [] →
        c.sendDtmf env tones d g = (c, []))
    ∧ (∀ s, c.dtmfSender = some s →
        c.sendDtmf env tones d g = (c, [.insertDTMF tones d g]))
    ∧ (∀ p st rest, c.dtmfSender = none → c.pc = some p →
        p.localStreams = st :: rest → st.audioTracks = [] →
        (c.sendDtmf env tones d g).2
          = .createDTMFSender .jsUndefined
            :: (if env .jsUndefined = none then [] else [.insertDTMF tones d g])) := by
  refine ⟨fun h1 h2 => ?_, fun p h1 h2 h3 => ?_, fun s h => ?_,
    fun p st rest h1 h2 h3 h4 => ?_⟩
  · simp [Call.sendDtmf, h1, h2]
  · simp [Call.sendDtmf, h1, h2, h3]
  · simp [Call.sendDtmf, h]
  · rcases henv : env .jsUndefined with _ | s <;>
      simp [Call.sendDtmf, h1, h2, h3, h4, henv]

/-- Witness for C9 amended: the no-peer-connection no-op on a fresh
call, and the creation attempt with the undefined track on
`noAudioCall`. -/
theorem C9_witness :
    (Call.new.dtmfSender = none ∧ Call.new.pc = none
      ∧ Call.new.sendDtmf envTruthy "1" 100 70 = (Call.new, []))
    ∧ (noAudioCall.dtmfSender = none ∧ noAudioCall.pc = some noAudioPc
      ∧ noAudioPc.localStreams = noAudioStream :: []
      ∧ noAudioStream.audioTracks = []
      ∧ (noAudioCall.sendDtmf envTruthy "1" 100 70).2
          = .createDTMFSender .jsUndefined
            :: (if envTruthy .jsUndefined = none then []
                else [.insertDTMF "1" 100 70])) :=
  ⟨⟨rfl, rfl, (C9_dtmf_lazy_guard envTruthy Call.new "1" 100 70).1 rfl rfl⟩,
   ⟨rfl, rfl, rfl, rfl,
    (C9_dtmf_lazy_guard envTruthy noAudioCall "1" 100 70).2.2.2 noAudioPc
      noAudioStream [] rfl rfl rfl rfl⟩⟩

end Sylkrtc
